import Mathlib

/-!
Shallow embedding of `src/swap_manager/swap_manager.py` (the smartswap
adaptive swappiness daemon) and verification of the frozen claims about it.

Modelling conventions:
* Python floats are modelled as rationals (`ℚ`); all arithmetic appearing in
  the embedded code (division by constants, sums, products) is exact in both.
* Python `int(x)` truncates toward zero; it is modelled by `pyInt`.
* Fallible effects (reading the config file, `psutil` calls, reading and
  writing `/proc/sys/vm/swappiness`, `fallocate`/`dd`/`mkswap`/`swapon`)
  are modelled as oracle inputs supplied per tick; the daemon's observable
  actions (tunable writes, log records, console reports, `os.setpriority`
  calls, filesystem actions) are collected as explicit outputs.
-/

/-- The constant `DEFAULT_NICENESS = 0` from swap_manager.py. -/
def DEFAULT_NICENESS : ℤ := 0

/-- The four weighting coefficients (`weights` dict in swap_manager.py). -/
structure Weights where
  disk_latency : ℚ
  cpu_usage : ℚ
  ram_usage : ℚ
  network_bandwidth : ℚ
deriving DecidableEq

/-- The dict `DEFAULT_WEIGHTS` from swap_manager.py (all 0.25). -/
def DEFAULT_WEIGHTS : Weights := ⟨1/4, 1/4, 1/4, 1/4⟩

/-- The coefficient sum `sum(weights.values())` as used by `validate_weights`. -/
def Weights.total (w : Weights) : ℚ :=
  w.disk_latency + w.cpu_usage + w.ram_usage + w.network_bandwidth

/-- One snapshot produced by `collect_metrics` (numeric fields only;
the timestamp is modelled as a natural-number identifier). -/
structure MetricSnapshot where
  timestamp : ℕ
  cpu_usage : ℚ
  ram_usage : ℚ
  swap_usage : ℚ
  swap_total_gb : ℚ
  swap_used_gb : ℚ
  disk_latency : ℚ
  disk_read_count : ℚ
  disk_write_count : ℚ
  network_bandwidth : ℚ
deriving DecidableEq

/-- An all-zero snapshot, used only as a `getLastD` default. -/
def dummySnapshot : MetricSnapshot := ⟨0, 0, 0, 0, 0, 0, 0, 0, 0, 0⟩

/-- The dict of per-field moving averages computed in `adjust_swappiness`
(every numeric key of a snapshot except `timestamp`). -/
structure AveragedMetrics where
  cpu_usage : ℚ
  ram_usage : ℚ
  swap_usage : ℚ
  swap_total_gb : ℚ
  swap_used_gb : ℚ
  disk_latency : ℚ
  disk_read_count : ℚ
  disk_write_count : ℚ
  network_bandwidth : ℚ
deriving DecidableEq

/-- Arithmetic mean (`np.mean`) of a list of rationals: sum divided by length. -/
def meanQ (xs : List ℚ) : ℚ := xs.sum / (xs.length : ℚ)

/-- The averages dict of `adjust_swappiness` (swap_manager.py lines 229-230):
the per-field mean over the current window, for every key except the
timestamp. -/
def movingAverages (ms : List MetricSnapshot) : AveragedMetrics where
  cpu_usage := meanQ (ms.map MetricSnapshot.cpu_usage)
  ram_usage := meanQ (ms.map MetricSnapshot.ram_usage)
  swap_usage := meanQ (ms.map MetricSnapshot.swap_usage)
  swap_total_gb := meanQ (ms.map MetricSnapshot.swap_total_gb)
  swap_used_gb := meanQ (ms.map MetricSnapshot.swap_used_gb)
  disk_latency := meanQ (ms.map MetricSnapshot.disk_latency)
  disk_read_count := meanQ (ms.map MetricSnapshot.disk_read_count)
  disk_write_count := meanQ (ms.map MetricSnapshot.disk_write_count)
  network_bandwidth := meanQ (ms.map MetricSnapshot.network_bandwidth)

/-- Python `int()` on a float: truncation toward zero (floor for
non-negative arguments, ceiling for negative ones). -/
def pyInt (q : ℚ) : ℤ := if 0 ≤ q then ⌊q⌋ else ⌈q⌉

/-- The function `calculate_swappiness(metrics, weights)` from swap_manager.py
lines 203-222, translated clause by clause from the source. -/
def calculate_swappiness (metrics : AveragedMetrics) (weights : Weights) : ℤ :=
  let norm_disk : ℚ := min 1 (metrics.disk_latency / 100)
  let norm_cpu : ℚ := metrics.cpu_usage / 100
  let norm_ram : ℚ := metrics.ram_usage / 100
  let norm_net : ℚ := min 1 (metrics.network_bandwidth / 1000)
  let weighted_score : ℚ :=
    weights.disk_latency * norm_disk + weights.cpu_usage * norm_cpu +
      weights.ram_usage * norm_ram + weights.network_bandwidth * norm_net
  let cpu_factor : ℚ := 1 - metrics.cpu_usage / 100
  let base_swappiness : ℚ := 100 + (weighted_score - 1/2) * 200
  let adjusted_swappiness : ℚ := base_swappiness * cpu_factor
  max 1 (min 200 (pyInt adjusted_swappiness))

/-- Modelled from the spec (section 4.3, for the C3 refinement comparison):
the calculator as the spec words it, with step 5 literally
`candidate = round(base × cpu_factor), clamped to [1, 200]`. -/
def calculate_swappiness_specRound (metrics : AveragedMetrics) (weights : Weights) : ℤ :=
  let norm_disk : ℚ := min 1 (metrics.disk_latency / 100)
  let norm_cpu : ℚ := metrics.cpu_usage / 100
  let norm_ram : ℚ := metrics.ram_usage / 100
  let norm_net : ℚ := min 1 (metrics.network_bandwidth / 1000)
  let weighted_score : ℚ :=
    weights.disk_latency * norm_disk + weights.cpu_usage * norm_cpu +
      weights.ram_usage * norm_ram + weights.network_bandwidth * norm_net
  let cpu_factor : ℚ := 1 - metrics.cpu_usage / 100
  let base : ℚ := 100 + (weighted_score - 1/2) * 200
  max 1 (min 200 (round (base * cpu_factor)))

/-- The spec's section-4.3 pipeline amended at step 5 only: the candidate is
the truncation toward zero (Python `int()`) of base × cpu_factor, clamped. -/
def calculate_swappiness_specTrunc (metrics : AveragedMetrics) (weights : Weights) : ℤ :=
  let norm_disk : ℚ := min 1 (metrics.disk_latency / 100)
  let norm_cpu : ℚ := metrics.cpu_usage / 100
  let norm_ram : ℚ := metrics.ram_usage / 100
  let norm_net : ℚ := min 1 (metrics.network_bandwidth / 1000)
  let weighted_score : ℚ :=
    weights.disk_latency * norm_disk + weights.cpu_usage * norm_cpu +
      weights.ram_usage * norm_ram + weights.network_bandwidth * norm_net
  let cpu_factor : ℚ := 1 - metrics.cpu_usage / 100
  let base : ℚ := 100 + (weighted_score - 1/2) * 200
  max 1 (min 200 (pyInt (base * cpu_factor)))

/-- The check `validate_weights` (swap_manager.py lines 297-302): passes
exactly when `abs(total - 1.0) > 0.001` does not hold. -/
def validate_weights (w : Weights) : Bool :=
  decide (¬ (1/1000 : ℚ) < |w.total - 1|)

/-- The window update in `run_daemon` (lines 281-284):
`metrics_list.append(metrics)` followed by `pop(0)` when the length
exceeds `max_entries`. -/
def appendSnapshot (max_entries : ℕ) (metrics_list : List MetricSnapshot)
    (m : MetricSnapshot) : List MetricSnapshot :=
  if max_entries < (metrics_list ++ [m]).length then (metrics_list ++ [m]).drop 1
  else metrics_list ++ [m]

/-- The parsed JSON configuration file: each key is present or absent
(`config.get(KEY, default)` in `load_config`). -/
structure ConfigFile where
  DISK_LATENCY : Option ℚ
  CPU_USAGE : Option ℚ
  RAM_USAGE : Option ℚ
  NETWORK_BANDWIDTH : Option ℚ
  PID : Option ℤ
  NICENESS : Option ℤ
deriving DecidableEq

/-- The `process_settings` dict built by `load_config`. -/
structure ProcessSettings where
  pid : Option ℤ
  niceness : ℤ
deriving DecidableEq

/-- Console reports (`print` calls) the daemon emits, named after the
messages in swap_manager.py. -/
inductive Report where
  | configError
  | noPidSpecified
  | foundPid (p : ℤ)
  | updatedNiceness (p n : ℤ)
  | nicenessFailed (p : ℤ)
  | pidExpired (p : ℤ)
  | stoppingTracking (p : ℤ)
deriving DecidableEq

/-- The weights dict `load_config` builds from the parsed JSON, with
per-key fallback to `DEFAULT_WEIGHTS`. -/
def configWeights (cfg : ConfigFile) : Weights :=
  ⟨cfg.DISK_LATENCY.getD DEFAULT_WEIGHTS.disk_latency,
   cfg.CPU_USAGE.getD DEFAULT_WEIGHTS.cpu_usage,
   cfg.RAM_USAGE.getD DEFAULT_WEIGHTS.ram_usage,
   cfg.NETWORK_BANDWIDTH.getD DEFAULT_WEIGHTS.network_bandwidth⟩

/-- Everything one call of `load_config` returns and does: the weights and
process settings returned, the console reports printed, and the
`os.setpriority(pid, niceness)` calls attempted. -/
structure LoadResult where
  weights : Weights
  settings : ProcessSettings
  reports : List Report
  prioritySets : List (ℤ × ℤ)
deriving DecidableEq

/-- The PID block of `load_config` (lines 52-70), acting on the
`process_settings` dict it just built.  Note the Python truthiness test
`if process_settings['pid']:`, under which both `None` and `0` take the
"no PID specified" branch (a PID of `0` is kept in the settings but never
checked for liveness).  Returns the settings as possibly reset, the
reports printed, and the `os.setpriority` calls attempted. -/
def pidBlock : Option ℤ → ℤ → (ℤ → Bool) → Bool →
    ProcessSettings × List Report × List (ℤ × ℤ)
  | none, nice0, _, _ => (⟨none, nice0⟩, [Report.noPidSpecified], [])
  | some p, nice0, pid_exists, setprio_ok =>
    if p ≠ 0 then
      if pid_exists p then
        if setprio_ok then
          (⟨some p, nice0⟩,
           [Report.foundPid p, Report.updatedNiceness p nice0], [(p, nice0)])
        else
          (⟨some p, nice0⟩,
           [Report.foundPid p, Report.nicenessFailed p], [(p, nice0)])
      else (⟨none, DEFAULT_NICENESS⟩, [Report.pidExpired p], [])
    else (⟨some p, nice0⟩, [Report.noPidSpecified], [])

/-- The function `load_config()` from swap_manager.py lines 35-76.  `cfg?` is
the outcome of opening and parsing the config file (`none` = any exception,
which the function turns into the default weights and empty settings);
`pid_exists` models `psutil.pid_exists`; `setprio_ok` models whether
`os.setpriority` succeeds. -/
def load_config : Option ConfigFile → (ℤ → Bool) → Bool → LoadResult
  | none, _, _ => ⟨DEFAULT_WEIGHTS, ⟨none, DEFAULT_NICENESS⟩, [Report.configError], []⟩
  | some cfg, pid_exists, setprio_ok =>
    let ps := pidBlock cfg.PID (cfg.NICENESS.getD DEFAULT_NICENESS)
      pid_exists setprio_ok
    ⟨configWeights cfg, ps.1, ps.2.1, ps.2.2⟩

/-- One record passed to `write_to_log` (lines 174-201): the snapshot it
formats, the old and new swappiness values, the `interval` argument, and
the optional weights-change pair. -/
structure LogEntry where
  metrics : MetricSnapshot
  old_swappiness : Option ℤ
  new_swappiness : Option ℤ
  interval : ℕ
  weights_changed : Option (Weights × Weights)
deriving DecidableEq

/-- The function `adjust_swappiness(metrics_list, weights, weights_changed)`
from lines 224-240.  `swappiness_read` is the outcome of its `get_swappiness()`
call (`none` = the read failed).  Returns the list of `set_swappiness`
writes and the list of `write_to_log` decision records it performs. -/
def adjust_swappiness (metrics_list : List MetricSnapshot) (weights : Weights)
    (weights_changed : Option (Weights × Weights)) (swappiness_read : Option ℤ) :
    List ℤ × List LogEntry :=
  if metrics_list.length < 5 then ([], [])
  else
    let averages := movingAverages metrics_list
    match swappiness_read with
    | none => ([], [])
    | some old_swappiness =>
      let new_swappiness := calculate_swappiness averages weights
      if 5 ≤ |new_swappiness - old_swappiness| then
        ([new_swappiness],
         [⟨metrics_list.getLastD dummySnapshot, some old_swappiness,
           some new_swappiness, metrics_list.length, weights_changed⟩])
      else ([], [])

/-- The loop-carried state of `run_daemon` (lines 242-246). -/
structure DaemonState where
  metrics_list : List MetricSnapshot
  previous_weights : Weights
  previous_settings : Option ProcessSettings
deriving DecidableEq

/-- The oracle inputs one iteration of the `while True` loop consumes:
the config-file read, process liveness, `os.setpriority` success, the
`collect_metrics()` result, and the three `get_swappiness()` reads (one
inside `adjust_swappiness`, two in the unconditional `write_to_log` call
at line 289), plus the wall-clock `elapsed_intervals` value. -/
structure TickEnv where
  cfg? : Option ConfigFile
  pid_exists : ℤ → Bool
  setprio_ok : Bool
  metrics? : Option MetricSnapshot
  swappiness_read : Option ℤ
  log_read_old : Option ℤ
  log_read_new : Option ℤ
  elapsed_intervals : ℕ

/-- The observable actions of one loop iteration. -/
structure TickOutput where
  writes : List ℤ
  decisionLogs : List LogEntry
  statusLogs : List LogEntry
  reports : List Report
  prioritySets : List (ℤ × ℤ)

/-- All records appended to the log file during the iteration, in order:
the decision records written by `adjust_swappiness` followed by the
unconditional per-cycle record of line 289. -/
def TickOutput.logs (o : TickOutput) : List LogEntry :=
  o.decisionLogs ++ o.statusLogs

/-- The body of the `if current_settings != previous_settings:` block of
`run_daemon` (lines 265-276), on the pid and niceness of the reloaded
settings: re-apply the priority when there is a live PID, reset the
settings and report "stopping tracking" when it has died in between. -/
def settingsPidStep : Option ℤ → ℤ → (ℤ → Bool) → Bool →
    ProcessSettings × List Report × List (ℤ × ℤ)
  | none, nice, _, _ => (⟨none, nice⟩, [], [])
  | some p, nice, pid_exists, setprio_ok =>
    if p ≠ 0 then
      if pid_exists p then
        if setprio_ok then
          (⟨some p, nice⟩, [Report.updatedNiceness p nice], [(p, nice)])
        else (⟨some p, nice⟩, [Report.nicenessFailed p], [(p, nice)])
      else (⟨none, DEFAULT_NICENESS⟩, [Report.stoppingTracking p], [])
    else (⟨some p, nice⟩, [], [])

/-- The `if current_settings != previous_settings:` block of `run_daemon`
(lines 263-277): the inner step runs only when the reloaded settings differ
from the previous tick's. -/
def settingsUpdate (prev : Option ProcessSettings) (cs : ProcessSettings)
    (pid_exists : ℤ → Bool) (setprio_ok : Bool) :
    ProcessSettings × List Report × List (ℤ × ℤ) :=
  if some cs ≠ prev then settingsPidStep cs.pid cs.niceness pid_exists setprio_ok
  else (cs, [], [])

/-- One iteration of the `while True` loop of `run_daemon` (lines 248-295),
in source order: reload config, diff the weights, diff and re-apply the
process settings, then (when `collect_metrics` produced a snapshot) append
it to the window with FIFO eviction, run `adjust_swappiness`, and write the
unconditional per-cycle log record of line 289. -/
def daemonTick (max_entries : ℕ) (st : DaemonState) (env : TickEnv) :
    DaemonState × TickOutput :=
  let lr := load_config env.cfg? env.pid_exists env.setprio_ok
  let weights_changed : Option (Weights × Weights) :=
    if lr.weights ≠ st.previous_weights then some (st.previous_weights, lr.weights)
    else none
  let s := settingsUpdate st.previous_settings lr.settings env.pid_exists env.setprio_ok
  let previous_settings' : Option ProcessSettings :=
    if some lr.settings ≠ st.previous_settings then some s.1 else st.previous_settings
  match env.metrics? with
  | none =>
    (⟨st.metrics_list, lr.weights, previous_settings'⟩,
     ⟨[], [], [], lr.reports ++ s.2.1, lr.prioritySets ++ s.2.2⟩)
  | some m =>
    let ml := appendSnapshot max_entries st.metrics_list m
    let adj := adjust_swappiness ml lr.weights weights_changed env.swappiness_read
    (⟨ml, lr.weights, previous_settings'⟩,
     ⟨adj.1, adj.2,
      [⟨m, env.log_read_old, env.log_read_new, env.elapsed_intervals, weights_changed⟩],
      lr.reports ++ s.2.1, lr.prioritySets ++ s.2.2⟩)

/-- The filesystem and subprocess actions `create_swapfile` can perform. -/
inductive FsAction where
  | fallocate (size_mb : ℕ)
  | dd (size_mb : ℕ)
  | chmod
  | mkswap
  | swapon
  | removeFile
deriving DecidableEq

/-- Success or failure of the external commands `create_swapfile` runs. -/
structure SwapEnv where
  fallocate_ok : Bool
  dd_ok : Bool
  chmod_ok : Bool
  mkswap_ok : Bool
  swapon_ok : Bool

/-- The function `create_swapfile(size_mb)` from lines 78-124: if the swapfile already
exists, report and return `True` with no further action; otherwise try
`fallocate`, fall back to `dd`, then `chmod`/`mkswap`/`swapon`, removing
the partial file and returning `False` on any failure.  Returns the
success flag and the ordered list of actions attempted. -/
def create_swapfile (size_mb : ℕ) (swapfile_exists : Bool) (env : SwapEnv) :
    Bool × List FsAction :=
  if swapfile_exists then (true, [])
  else
    let allocActs : Option (List FsAction) :=
      if env.fallocate_ok then some [FsAction.fallocate size_mb]
      else if env.dd_ok then some [FsAction.fallocate size_mb, FsAction.dd size_mb]
      else none
    match allocActs with
    | none =>
      (false, [FsAction.fallocate size_mb, FsAction.dd size_mb, FsAction.removeFile])
    | some acts =>
      if env.chmod_ok then
        if env.mkswap_ok then
          if env.swapon_ok then
            (true, acts ++ [FsAction.chmod, FsAction.mkswap, FsAction.swapon])
          else
            (false, acts ++ [FsAction.chmod, FsAction.mkswap, FsAction.swapon,
                             FsAction.removeFile])
        else (false, acts ++ [FsAction.chmod, FsAction.mkswap, FsAction.removeFile])
      else (false, acts ++ [FsAction.chmod, FsAction.removeFile])

/-- Whether the swapfile exists after a list of actions, starting from
`init`: allocation actions create it, `removeFile` deletes it. -/
def fileExistsAfter (init : Bool) (acts : List FsAction) : Bool :=
  acts.foldl
    (fun e a =>
      match a with
      | FsAction.fallocate _ => true
      | FsAction.dd _ => true
      | FsAction.removeFile => false
      | _ => e)
    init

/-! ## Concrete scenarios used by witnesses and counterexamples -/

/-- A snapshot that differs from the others only in its timestamp. -/
def snapT (t : ℕ) : MetricSnapshot := { dummySnapshot with timestamp := t }

/-- The empty initial daemon state of `run_daemon` (lines 243-246) with the
default weighting. -/
def stEmpty : DaemonState := ⟨[], DEFAULT_WEIGHTS, none⟩

/-- Averaged metrics on which truncation and rounding differ:
base × cpu_factor evaluates to 13.9 (disk latency 27.8 ms, all else 0). -/
def avgTrunc : AveragedMetrics := ⟨0, 0, 0, 0, 0, 139/5, 0, 0, 0⟩

/-! ## Helper lemmas -/

/-- Appending one snapshot preserves the window capacity bound. -/
theorem appendSnapshot_length_le (N : ℕ) (xs : List MetricSnapshot)
    (m : MetricSnapshot) (h : xs.length ≤ N) :
    (appendSnapshot N xs m).length ≤ N := by
  unfold appendSnapshot
  split <;>
    simp only [List.length_drop, List.length_append, List.length_cons,
      List.length_nil] at * <;>
    omega

/-- The capacity bound is an invariant of any fold of appends. -/
theorem foldl_appendSnapshot_length (N : ℕ) (l : List MetricSnapshot) :
    ∀ acc : List MetricSnapshot, acc.length ≤ N →
      (l.foldl (appendSnapshot N) acc).length ≤ N := by
  induction l with
  | nil => intro acc h; simpa using h
  | cons x xs ih => intro acc h; exact ih _ (appendSnapshot_length_le N acc x h)

/-- `adjust_swappiness` does nothing when the window is shorter than 5. -/
theorem adjust_swappiness_short (ml : List MetricSnapshot) (w : Weights)
    (wc : Option (Weights × Weights)) (r : Option ℤ) (h : ml.length < 5) :
    adjust_swappiness ml w wc r = ([], []) := by
  unfold adjust_swappiness
  rw [if_pos h]

/-- `adjust_swappiness` does nothing when the swappiness read fails. -/
theorem adjust_swappiness_noRead (ml : List MetricSnapshot) (w : Weights)
    (wc : Option (Weights × Weights)) :
    adjust_swappiness ml w wc none = ([], []) := by
  unfold adjust_swappiness
  split <;> rfl

/-- Closed form of `adjust_swappiness` on a successful read with enough
data: the hysteresis gate decides between a write-plus-record and nothing. -/
theorem adjust_swappiness_eq (ml : List MetricSnapshot) (w : Weights)
    (wc : Option (Weights × Weights)) (V : ℤ) (h5 : 5 ≤ ml.length) :
    adjust_swappiness ml w wc (some V) =
      if 5 ≤ |calculate_swappiness (movingAverages ml) w - V| then
        ([calculate_swappiness (movingAverages ml) w],
         [⟨ml.getLastD dummySnapshot, some V,
           some (calculate_swappiness (movingAverages ml) w), ml.length, wc⟩])
      else ([], []) := by
  unfold adjust_swappiness
  rw [if_neg (by omega)]

/-- The weights stored after a tick are exactly the weights the config
reload returned. -/
theorem daemonTick_previous_weights (N : ℕ) (st : DaemonState) (env : TickEnv) :
    (daemonTick N st env).1.previous_weights
      = (load_config env.cfg? env.pid_exists env.setprio_ok).weights := by
  unfold daemonTick
  cases env.metrics? <;> rfl

/-- The settings stored after a tick. -/
theorem daemonTick_previous_settings (N : ℕ) (st : DaemonState) (env : TickEnv) :
    (daemonTick N st env).1.previous_settings
      = (if some (load_config env.cfg? env.pid_exists env.setprio_ok).settings
            ≠ st.previous_settings
         then some (settingsUpdate st.previous_settings
           (load_config env.cfg? env.pid_exists env.setprio_ok).settings
           env.pid_exists env.setprio_ok).1
         else st.previous_settings) := by
  unfold daemonTick
  cases env.metrics? <;> rfl

/-- The console reports of a tick come from the config reload followed by
the settings-diff block. -/
theorem daemonTick_reports (N : ℕ) (st : DaemonState) (env : TickEnv) :
    (daemonTick N st env).2.reports
      = (load_config env.cfg? env.pid_exists env.setprio_ok).reports ++
        (settingsUpdate st.previous_settings
          (load_config env.cfg? env.pid_exists env.setprio_ok).settings
          env.pid_exists env.setprio_ok).2.1 := by
  unfold daemonTick
  cases env.metrics? <;> rfl

/-- The priority applications of a tick come from the config reload
followed by the settings-diff block. -/
theorem daemonTick_prioritySets (N : ℕ) (st : DaemonState) (env : TickEnv) :
    (daemonTick N st env).2.prioritySets
      = (load_config env.cfg? env.pid_exists env.setprio_ok).prioritySets ++
        (settingsUpdate st.previous_settings
          (load_config env.cfg? env.pid_exists env.setprio_ok).settings
          env.pid_exists env.setprio_ok).2.2 := by
  unfold daemonTick
  cases env.metrics? <;> rfl

/-- The weights `load_config` returns on a successful parse are the config
weights, whatever happens in the PID block. -/
theorem load_config_weights (cfg : ConfigFile) (pe : ℤ → Bool) (so : Bool) :
    (load_config (some cfg) pe so).weights = configWeights cfg := rfl

/-- The whole result of `load_config` when the configured PID is non-zero
and no longer alive. -/
theorem load_config_dead (cfg : ConfigFile) (pe : ℤ → Bool) (so : Bool) (p : ℤ)
    (hp : cfg.PID = some p) (hpz : p ≠ 0) (hdead : pe p = false) :
    load_config (some cfg) pe so
      = ⟨configWeights cfg, ⟨none, DEFAULT_NICENESS⟩, [Report.pidExpired p], []⟩ := by
  simp only [load_config, hp, pidBlock, hdead, if_pos hpz]
  rfl

/-- The settings-diff block does nothing when the reloaded settings carry
no PID. -/
theorem settingsUpdate_pid_none (prev : Option ProcessSettings)
    (cs : ProcessSettings) (pe : ℤ → Bool) (so : Bool) (h : cs.pid = none) :
    settingsUpdate prev cs pe so = (cs, [], []) := by
  unfold settingsUpdate
  rw [h]
  split
  · show (⟨none, cs.niceness⟩, [], []) = (cs, [], [])
    rw [← h]
  · rfl

/-! ## Claim C4: window capacity and FIFO eviction -/

/-- Claim C4: starting from the empty window, after every append the window
holds at most its configured capacity `N`; and appending while exactly `N`
snapshots are held evicts exactly the head entry, leaving the remaining
snapshots in their original order followed by the new one at the tail. -/
theorem C4_theorem (N : ℕ) (snaps : List MetricSnapshot) (k : ℕ) :
    ((snaps.take k).foldl (appendSnapshot N) []).length ≤ N ∧
    (∀ (xs : List MetricSnapshot) (m : MetricSnapshot),
      xs.length = N → 0 < N → appendSnapshot N xs m = xs.drop 1 ++ [m]) := by
  refine ⟨foldl_appendSnapshot_length N _ _ (by simp), ?_⟩
  intro xs m hlen hpos
  unfold appendSnapshot
  rw [if_pos (by simp only [List.length_append, List.length_cons,
    List.length_nil, hlen]; omega)]
  cases xs with
  | nil => simp at hlen; omega
  | cons a as => simp

/-- Witness for C4 at capacity 2 with three distinct snapshots. -/
theorem C4_witness :
    (([snapT 1, snapT 2, snapT 3].take 3).foldl (appendSnapshot 2) []).length ≤ 2 ∧
    appendSnapshot 2 [snapT 1, snapT 2] (snapT 3)
      = [snapT 1, snapT 2].drop 1 ++ [snapT 3] :=
  ⟨(C4_theorem 2 [snapT 1, snapT 2, snapT 3] 3).1,
   (C4_theorem 2 [snapT 1, snapT 2, snapT 3] 3).2 [snapT 1, snapT 2] (snapT 3)
     rfl (by norm_num)⟩

/-! ## Claim C8: the calculator's range -/

/-- Claim C8: for every weighting whose coefficients sum to within ±0.001
of 1.0 and every averaged metrics input, `calculate_swappiness` returns an
integer in [1, 200]. -/
theorem C8_theorem (metrics : AveragedMetrics) (w : Weights)
    (_hw : |w.total - 1| ≤ 1/1000) :
    1 ≤ calculate_swappiness metrics w ∧ calculate_swappiness metrics w ≤ 200 := by
  have h : ∀ x : ℤ, 1 ≤ max 1 (min 200 x) ∧ max 1 (min 200 x) ≤ 200 := fun x =>
    ⟨le_max_left _ _, max_le (by norm_num) (min_le_left _ _)⟩
  exact h _

/-- Witness for C8 at the spec's section-8 scenario metrics and the default
weighting. -/
theorem C8_witness :
    |DEFAULT_WEIGHTS.total - 1| ≤ 1/1000 ∧
    (1 ≤ calculate_swappiness ⟨80, 50, 0, 0, 0, 20, 0, 0, 200⟩ DEFAULT_WEIGHTS ∧
     calculate_swappiness ⟨80, 50, 0, 0, 0, 20, 0, 0, 200⟩ DEFAULT_WEIGHTS ≤ 200) :=
  ⟨by norm_num [DEFAULT_WEIGHTS, Weights.total],
   C8_theorem _ _ (by norm_num [DEFAULT_WEIGHTS, Weights.total])⟩

/-! ## Claim C9: idempotent provisioning -/

/-- Claim C9: invoking `create_swapfile` when the swapfile already exists
succeeds immediately with no filesystem action, and invoking it again on
the resulting (unchanged) filesystem state succeeds again with no action. -/
theorem C9_theorem (size_mb : ℕ) (env : SwapEnv) :
    create_swapfile size_mb true env = (true, []) ∧
    create_swapfile size_mb
        (fileExistsAfter true (create_swapfile size_mb true env).2) env
      = (true, []) := by
  constructor <;> rfl

/-! ## Claim C3: the calculator formula -/

/-- Claim C3 counterexample: at averaged disk latency 27.8 ms (all other
inputs 0) and the default weighting, base × cpu_factor = 13.9; the code's
`int()` truncation yields 13 while the spec's `round` yields 14, so the
code does not compute the spec's formula. -/
theorem C3_counterexample :
    calculate_swappiness avgTrunc DEFAULT_WEIGHTS = 13 ∧
    calculate_swappiness_specRound avgTrunc DEFAULT_WEIGHTS = 14 := by
  constructor <;>
    norm_num [calculate_swappiness, calculate_swappiness_specRound, avgTrunc,
      DEFAULT_WEIGHTS, pyInt, round_eq, min_def, max_def]

/-- Claim C3 amended: the calculator computes the spec's pipeline with the
final step replaced by truncation toward zero (Python `int()`) of
base × cpu_factor, clamped to [1, 200]. -/
theorem C3_theorem (metrics : AveragedMetrics) (weights : Weights) :
    calculate_swappiness metrics weights
      = calculate_swappiness_specTrunc metrics weights := rfl

/-! ## Claim C10: failed swappiness read aborts the calculator step -/

/-- Claim C10: when the metrics sample succeeded but reading the current
swappiness yields no value, the calculator step of the tick is aborted:
no tunable write, no decision record, and the metrics window equals exactly
what the window update produced, untouched by the calculator. -/
theorem C10_theorem (N : ℕ) (st : DaemonState) (env : TickEnv)
    (m : MetricSnapshot) (hm : env.metrics? = some m)
    (hr : env.swappiness_read = none) :
    (daemonTick N st env).2.writes = [] ∧
    (daemonTick N st env).2.decisionLogs = [] ∧
    (daemonTick N st env).1.metrics_list = appendSnapshot N st.metrics_list m := by
  unfold daemonTick
  rw [hm, hr]
  simp [adjust_swappiness_noRead]

/-- The oracle inputs of a tick whose swappiness read fails while metrics
collection succeeds. -/
def envNoRead : TickEnv :=
  ⟨none, fun _ => false, true, some dummySnapshot, none, none, none, 0⟩

/-- Witness for C10 on the empty initial state. -/
theorem C10_witness :
    (daemonTick 200 stEmpty envNoRead).2.writes = [] ∧
    (daemonTick 200 stEmpty envNoRead).2.decisionLogs = [] ∧
    (daemonTick 200 stEmpty envNoRead).1.metrics_list
      = appendSnapshot 200 stEmpty.metrics_list dummySnapshot :=
  C10_theorem 200 stEmpty envNoRead dummySnapshot rfl rfl

/-! ## Claim C5: fewer than 5 snapshots -/

/-- A state holding two snapshots, below the 5-snapshot threshold even
after the tick appends a third. -/
def stShort : DaemonState := ⟨[snapT 10, snapT 11], DEFAULT_WEIGHTS, none⟩

/-- Oracle inputs for a tick with a successful sample and successful
swappiness reads. -/
def envSample : TickEnv :=
  ⟨none, fun _ => false, true, some (snapT 12), some 60, some 60, some 60, 3⟩

/-- Claim C5 counterexample: on a tick whose window holds 3 < 5 snapshots,
no tunable write occurs — but a log record IS emitted (the unconditional
per-cycle record of run_daemon line 289), so "no log record is emitted"
fails on the code. -/
theorem C5_counterexample :
    (daemonTick 200 stShort envSample).1.metrics_list.length < 5 ∧
    (daemonTick 200 stShort envSample).2.writes = [] ∧
    (daemonTick 200 stShort envSample).2.logs ≠ [] := by
  refine ⟨?_, ?_, ?_⟩ <;>
    simp [daemonTick, load_config, settingsUpdate, TickOutput.logs,
      adjust_swappiness, appendSnapshot, envSample, stShort, snapT,
      dummySnapshot, stEmpty]

/-- Claim C5 amended: whenever the window (after the tick's append) holds
fewer than 5 snapshots, the calculator skips the cycle — no tunable write
and no decision record, regardless of the metric values — while the
unconditional per-cycle status record is still written. -/
theorem C5_theorem (N : ℕ) (st : DaemonState) (env : TickEnv)
    (m : MetricSnapshot) (hm : env.metrics? = some m)
    (hlen : (appendSnapshot N st.metrics_list m).length < 5) :
    (daemonTick N st env).2.writes = [] ∧
    (daemonTick N st env).2.decisionLogs = [] ∧
    (daemonTick N st env).2.statusLogs ≠ [] := by
  unfold daemonTick
  rw [hm]
  simp [adjust_swappiness_short _ _ _ _ hlen]

/-- Witness for C5 on the two-snapshot state. -/
theorem C5_witness :
    (daemonTick 200 stShort envSample).2.writes = [] ∧
    (daemonTick 200 stShort envSample).2.decisionLogs = [] ∧
    (daemonTick 200 stShort envSample).2.statusLogs ≠ [] :=
  C5_theorem 200 stShort envSample (snapT 12) rfl (by decide)

/-! ## Claim C2: the hysteresis gate -/

/-- A snapshot whose averaged window yields candidate 63 under the default
weighting (ram 100%, disk latency 26 ms, cpu 0). -/
def snapHyst : MetricSnapshot := ⟨0, 0, 100, 0, 0, 0, 26, 0, 0, 0⟩

/-- Four copies of `snapHyst` held before the tick: the tick's append makes
the window [snapHyst × 5]. -/
def stHyst : DaemonState :=
  ⟨[snapHyst, snapHyst, snapHyst, snapHyst], DEFAULT_WEIGHTS, none⟩

/-- Oracle inputs: metrics sample succeeds with `snapHyst`, the current
swappiness reads 60. -/
def envHyst : TickEnv :=
  ⟨none, fun _ => false, true, some snapHyst, some 60, some 60, some 60, 9⟩

/-- The five-snapshot window used to exercise the hysteresis gate directly. -/
def mlHyst : List MetricSnapshot :=
  [snapHyst, snapHyst, snapHyst, snapHyst, snapHyst]

/-- Claim C2 counterexample: candidate C = 63 against current value V = 60,
so |C − V| = 3 < 5: the candidate is discarded with no tunable write, as
claimed — but a log entry IS emitted for that cycle (the unconditional
per-cycle record of run_daemon line 289), so "no log entry emitted for that
cycle" fails on the code. -/
theorem C2_counterexample :
    calculate_swappiness
        (movingAverages (appendSnapshot 200 stHyst.metrics_list snapHyst))
        DEFAULT_WEIGHTS = 63 ∧
    envHyst.swappiness_read = some 60 ∧
    (daemonTick 200 stHyst envHyst).2.writes = [] ∧
    (daemonTick 200 stHyst envHyst).2.logs ≠ [] := by
  refine ⟨?_, rfl, ?_, ?_⟩ <;>
    norm_num [daemonTick, load_config, settingsUpdate, TickOutput.logs,
      adjust_swappiness, appendSnapshot, envHyst, stHyst, snapHyst,
      calculate_swappiness, movingAverages, meanQ, DEFAULT_WEIGHTS, pyInt,
      min_def, max_def]

/-- Claim C2 amended: with at least 5 snapshots and a successful read of
current value V, the tunable is written (becoming the candidate C) iff
|C − V| ≥ 5, and when |C − V| < 5 the candidate is discarded with no write
and no decision record; the loop still emits its unconditional per-cycle
status log entry whenever the metrics sample succeeds. -/
theorem C2_theorem :
    (∀ (ml : List MetricSnapshot) (w : Weights)
       (wc : Option (Weights × Weights)) (V : ℤ), 5 ≤ ml.length →
      ((adjust_swappiness ml w wc (some V)).1
          = [calculate_swappiness (movingAverages ml) w]
        ↔ 5 ≤ |calculate_swappiness (movingAverages ml) w - V|) ∧
      (|calculate_swappiness (movingAverages ml) w - V| < 5 →
        adjust_swappiness ml w wc (some V) = ([], []))) ∧
    (∀ (N : ℕ) (st : DaemonState) (env : TickEnv) (m : MetricSnapshot),
      env.metrics? = some m → (daemonTick N st env).2.statusLogs ≠ []) := by
  constructor
  · intro ml w wc V h5
    rw [adjust_swappiness_eq ml w wc V h5]
    by_cases hge : 5 ≤ |calculate_swappiness (movingAverages ml) w - V|
    · rw [if_pos hge]
      exact ⟨iff_of_true rfl hge, fun hlt => absurd hge (not_le.mpr hlt)⟩
    · rw [if_neg hge]
      exact ⟨iff_of_false (by simp) hge, fun _ => rfl⟩
  · intro N st env m hm
    unfold daemonTick
    rw [hm]
    simp

/-- Witness for C2 at the V = 60, C = 63 scenario. -/
theorem C2_witness :
    (((adjust_swappiness mlHyst DEFAULT_WEIGHTS none (some 60)).1
        = [calculate_swappiness (movingAverages mlHyst) DEFAULT_WEIGHTS]
      ↔ 5 ≤ |calculate_swappiness (movingAverages mlHyst) DEFAULT_WEIGHTS - 60|) ∧
     (|calculate_swappiness (movingAverages mlHyst) DEFAULT_WEIGHTS - 60| < 5 →
       adjust_swappiness mlHyst DEFAULT_WEIGHTS none (some 60) = ([], []))) ∧
    (daemonTick 200 stHyst envHyst).2.statusLogs ≠ [] :=
  ⟨C2_theorem.1 mlHyst DEFAULT_WEIGHTS none 60 (by decide),
   C2_theorem.2 200 stHyst envHyst snapHyst rfl⟩

/-! ## Claim C1: per-tick weighting validation -/

/-- A config file supplying four coefficients of 0.5 each (sum 2.0, far
outside the ±0.001 tolerance), with no PID. -/
def badCfg : ConfigFile := ⟨some (1/2), some (1/2), some (1/2), some (1/2), none, none⟩

/-- A snapshot with ram at 100% and everything else 0. -/
def snapRam : MetricSnapshot := ⟨0, 0, 100, 0, 0, 0, 0, 0, 0, 0⟩

/-- Four copies of `snapRam` held before the tick, default weighting active. -/
def stRam : DaemonState := ⟨[snapRam, snapRam, snapRam, snapRam], DEFAULT_WEIGHTS, none⟩

/-- Oracle inputs: the config read returns `badCfg`, the metrics sample
succeeds with `snapRam`, the current swappiness reads 150. -/
def envBadCfg : TickEnv :=
  ⟨some badCfg, fun _ => false, true, some snapRam, some 150, some 150, some 150, 4⟩

/-- Claim C1 counterexample: the config supplies a weighting summing to 2.0,
yet the tick adopts it (the stored weighting becomes the invalid one, not
the previously active valid default) and computes with it: the tick writes
candidate 100, where the retained default weighting would have produced 50.
No rejection happens. -/
theorem C1_counterexample :
    (1/1000 : ℚ) < |(configWeights badCfg).total - 1| ∧
    stRam.previous_weights = DEFAULT_WEIGHTS ∧
    (daemonTick 200 stRam envBadCfg).1.previous_weights = configWeights badCfg ∧
    configWeights badCfg ≠ DEFAULT_WEIGHTS ∧
    (daemonTick 200 stRam envBadCfg).2.writes = [100] ∧
    calculate_swappiness
        (movingAverages (appendSnapshot 200 stRam.metrics_list snapRam))
        DEFAULT_WEIGHTS = 50 := by
  refine ⟨by norm_num [configWeights, badCfg, DEFAULT_WEIGHTS, Weights.total],
    rfl, ?_, ?_, ?_, ?_⟩ <;>
    norm_num [daemonTick, load_config, pidBlock, settingsUpdate, configWeights,
      adjust_swappiness, appendSnapshot, envBadCfg, stRam, snapRam, badCfg,
      calculate_swappiness, movingAverages, meanQ, DEFAULT_WEIGHTS,
      Weights.mk.injEq, pyInt, min_def, max_def]

/-- Claim C1 amended: the per-tick config reload performs no sum validation —
whatever weighting the config supplies is stored and used for that tick's
calculation; the sum-to-1 invariant is enforced only by `validate_weights`,
which `main` runs once at startup (rejecting by aborting, not by retaining). -/
theorem C1_theorem :
    (∀ (N : ℕ) (st : DaemonState) (env : TickEnv) (cfg : ConfigFile),
      env.cfg? = some cfg →
      (daemonTick N st env).1.previous_weights = configWeights cfg) ∧
    (∀ w : Weights, validate_weights w = true ↔ |w.total - 1| ≤ 1/1000) := by
  constructor
  · intro N st env cfg hc
    rw [daemonTick_previous_weights, hc, load_config_weights]
  · intro w
    simp [validate_weights, not_lt]

/-- Witness for C1 at the invalid config `badCfg`. -/
theorem C1_witness :
    (daemonTick 200 stRam envBadCfg).1.previous_weights = configWeights badCfg ∧
    (validate_weights (configWeights badCfg) = true ↔
      |(configWeights badCfg).total - 1| ≤ 1/1000) :=
  ⟨C1_theorem.1 200 stRam envBadCfg badCfg rfl,
   C1_theorem.2 (configWeights badCfg)⟩

/-! ## Claim C6: config read failure -/

/-- A valid custom weighting different from the built-in default. -/
def customW : Weights := ⟨1/2, 1/5, 1/5, 1/10⟩

/-- A state carrying the custom weighting and a tracked process (42, 5)
from earlier successful loads. -/
def stCustom : DaemonState := ⟨[], customW, some ⟨some 42, 5⟩⟩

/-- Oracle inputs for a tick whose config read fails. -/
def envFail : TickEnv := ⟨none, fun _ => false, true, none, none, none, none, 0⟩

/-- Claim C6 counterexample: the weighting of the last successful valid load
is `customW` (a valid sum-1 weighting) and the process target is (42, 5);
after a tick whose config read fails, the stored weighting is the built-in
default — not the retained previous one — and the process target is gone. -/
theorem C6_counterexample :
    |customW.total - 1| ≤ 1/1000 ∧
    (daemonTick 200 stCustom envFail).1.previous_weights ≠ customW ∧
    (daemonTick 200 stCustom envFail).1.previous_settings ≠ some ⟨some 42, 5⟩ := by
  refine ⟨by norm_num [customW, Weights.total], ?_, ?_⟩ <;>
    norm_num [daemonTick, load_config, settingsUpdate, settingsPidStep,
      envFail, stCustom, customW, DEFAULT_WEIGHTS, DEFAULT_NICENESS,
      Weights.mk.injEq, ProcessSettings.mk.injEq]

/-- Claim C6 amended: on a config read/parse failure the loop does continue
(the tick completes and reports the error), but the values adopted for that
tick are the built-in defaults — default weighting, no process target — not
the values of the last successful valid load. -/
theorem C6_theorem (N : ℕ) (st : DaemonState) (env : TickEnv)
    (h : env.cfg? = none) :
    (daemonTick N st env).1.previous_weights = DEFAULT_WEIGHTS ∧
    (daemonTick N st env).1.previous_settings = some ⟨none, DEFAULT_NICENESS⟩ ∧
    Report.configError ∈ (daemonTick N st env).2.reports := by
  refine ⟨?_, ?_, ?_⟩
  · rw [daemonTick_previous_weights, h]
    rfl
  · rw [daemonTick_previous_settings, h]
    show (if some (⟨none, DEFAULT_NICENESS⟩ : ProcessSettings) ≠ st.previous_settings
      then _ else st.previous_settings) = _
    split
    · rw [settingsUpdate_pid_none _ _ _ _ rfl]
      rfl
    · next hne => rw [not_ne_iff] at hne; rw [← hne]
  · rw [daemonTick_reports, h]
    show Report.configError ∈ [Report.configError] ++ _
    simp

/-- Witness for C6 on the custom-weighting state. -/
theorem C6_witness :
    (daemonTick 200 stCustom envFail).1.previous_weights = DEFAULT_WEIGHTS ∧
    (daemonTick 200 stCustom envFail).1.previous_settings
      = some ⟨none, DEFAULT_NICENESS⟩ ∧
    Report.configError ∈ (daemonTick 200 stCustom envFail).2.reports :=
  C6_theorem 200 stCustom envFail rfl

/-! ## Claim C7: expiry of the monitored process -/

/-- A config file naming PID 42 with niceness 5 and no weight overrides;
it stays byte-identical across the scenario's ticks. -/
def cfgPid : ConfigFile := ⟨none, none, none, none, some 42, some 5⟩

/-- Oracle inputs for a tick on which PID 42 is alive. -/
def envPidAlive : TickEnv :=
  ⟨some cfgPid, fun _ => true, true, none, none, none, none, 0⟩

/-- Oracle inputs for a tick on which PID 42 is no longer observable. -/
def envPidDead : TickEnv :=
  ⟨some cfgPid, fun _ => false, true, none, none, none, none, 0⟩

/-- Claim C7 counterexample: PID 42 is monitored on tick 1, unobservable
from tick 2 on, with the configuration unchanged; the expiry is reported on
tick 2 AND again on tick 3 (the config loader re-prints "no longer running"
every tick while the dead PID stays in the config), so "reported exactly
once — never again on any later tick" fails on the code. -/
theorem C7_counterexample :
    Report.pidExpired 42 ∈
      (daemonTick 200 (daemonTick 200 stEmpty envPidAlive).1 envPidDead).2.reports ∧
    Report.pidExpired 42 ∈
      (daemonTick 200
        (daemonTick 200 (daemonTick 200 stEmpty envPidAlive).1 envPidDead).1
        envPidDead).2.reports := by
  constructor <;>
    simp [daemonTick, load_config, pidBlock, settingsUpdate, settingsPidStep,
      envPidAlive, envPidDead, cfgPid, stEmpty, configWeights,
      DEFAULT_WEIGHTS, DEFAULT_NICENESS]

/-- Claim C7 amended: on every tick where the configured PID is non-zero
and unobservable, the reconciler resets the process target to none, no
priority application is attempted, and the expiry is reported — on that
tick and hence on every such tick while the configuration still names the
dead process, not exactly once. -/
theorem C7_theorem (N : ℕ) (st : DaemonState) (env : TickEnv)
    (cfg : ConfigFile) (p : ℤ) (hc : env.cfg? = some cfg)
    (hp : cfg.PID = some p) (hpz : p ≠ 0) (hdead : env.pid_exists p = false) :
    (load_config env.cfg? env.pid_exists env.setprio_ok).settings
        = ⟨none, DEFAULT_NICENESS⟩ ∧
    Report.pidExpired p ∈ (daemonTick N st env).2.reports ∧
    (daemonTick N st env).2.prioritySets = [] := by
  have hlc := load_config_dead cfg env.pid_exists env.setprio_ok p hp hpz hdead
  refine ⟨?_, ?_, ?_⟩
  · rw [hc, hlc]
  · rw [daemonTick_reports, hc, hlc]
    show Report.pidExpired p ∈ [Report.pidExpired p] ++ _
    simp
  · rw [daemonTick_prioritySets, hc, hlc,
      settingsUpdate_pid_none _ _ _ _ rfl]
    rfl

/-- Witness for C7 on a tick with the dead PID 42. -/
theorem C7_witness :
    (load_config envPidDead.cfg? envPidDead.pid_exists envPidDead.setprio_ok).settings
        = ⟨none, DEFAULT_NICENESS⟩ ∧
    Report.pidExpired 42 ∈ (daemonTick 200 stEmpty envPidDead).2.reports ∧
    (daemonTick 200 stEmpty envPidDead).2.prioritySets = [] :=
  C7_theorem 200 stEmpty envPidDead cfgPid 42 rfl rfl (by norm_num) rfl
